import Mathlib

/-!
Verification of the desktop command shim
(`packages/desktop/src-tauri/src/main.rs`).

The program is a thin layer of command handlers over externally supplied
capability providers (settings store, file dialogs, updater, notification
center, process control).  Each provider is embedded as an explicit
environment value; each handler is a pure Lean function translated from
the corresponding Rust function.
-/

namespace Shim

/-! ## JSON values and the settings store

The store (`tauri_plugin_store`) is a persisted JSON object: a map from
string keys to JSON values.  Only string-ness of a value is observed by
the code (`value.as_str()`), so the JSON value type records a string
constructor and representative non-string constructors. -/

/-- A JSON value as stored in the settings store. -/
inductive JsonValue : Type
  | str (s : String)
  | num (n : Int)
  | boolean (b : Bool)
  | null
  deriving DecidableEq, Repr

/-- Rust `serde_json::Value::as_str`: `Some` exactly on JSON strings. -/
def JsonValue.as_str : JsonValue → Option String
  | .str s => some s
  | _ => none

/-- The in-memory content of the settings store: an association from keys
to JSON values, no duplicate keys maintained by `storeSet`. -/
abbrev Store : Type := List (String × JsonValue)

/-- Store lookup (`store.get(key)`). -/
def storeGet (st : Store) (k : String) : Option JsonValue :=
  (st.find? (fun p => p.1 = k)).map Prod.snd

/-- Store deletion (`store.delete(key)`): removes every entry for the key. -/
def storeDelete (st : Store) (k : String) : Store :=
  st.filter (fun p => p.1 ≠ k)

/-- Store insertion (`store.set(key, value)`): the key maps to exactly the
new value afterwards. -/
def storeSet (st : Store) (k : String) (v : JsonValue) : Store :=
  (k, v) :: storeDelete st k

/-- `STORE_NAME` in the source. -/
def STORE_NAME : String := "settings.json"

/-- `DEFAULT_SERVER_KEY` in the source. -/
def DEFAULT_SERVER_KEY : String := "defaultServerUrl"

/-- Fallible behaviour of the store provider for one invocation:
`openError` is the error of `app.store(STORE_NAME)` when opening fails,
`saveError` the error of `store.save()` when persisting fails. -/
structure StoreEnv : Type where
  openError : Option String
  saveError : Option String

/-- Rust `get_default_server_url`: open the store, read the fixed key,
return the string value if the stored value is a string, absent
otherwise. -/
def get_default_server_url (env : StoreEnv) (st : Store) :
    Except String (Option String) :=
  match env.openError with
  | some e => .error e
  | none =>
    match storeGet st DEFAULT_SERVER_KEY with
    | some value =>
      match value.as_str with
      | some url => .ok (some url)
      | none => .ok none
    | none => .ok none

/-- Rust `set_default_server_url`: open the store; if a URL is given write
it (as a JSON string) under the fixed key, otherwise delete the key; then
save.  Returns the command result together with the resulting in-memory
store content (unchanged when opening fails). -/
def set_default_server_url (env : StoreEnv) (st : Store) (url : Option String) :
    Except String Unit × Store :=
  match env.openError with
  | some e => (.error e, st)
  | none =>
    let st2 : Store :=
      match url with
      | some u => storeSet st DEFAULT_SERVER_KEY (.str u)
      | none => storeDelete st DEFAULT_SERVER_KEY
    match env.saveError with
    | some e => (.error e, st2)
    | none => (.ok (), st2)

/-! ## Operating-system identity -/

/-- The compilation target selected by the `cfg(target_os = ...)`
attributes in the source. -/
inductive TargetOs : Type
  | macos
  | windows
  | linux
  | other (name : String)
  deriving DecidableEq, Repr

/-- Rust `get_os`: one `return` per compilation target. -/
def get_os : TargetOs → String
  | .macos => "macos"
  | .windows => "windows"
  | .linux => "linux"
  | .other _ => "unknown"

/-! ## Updater -/

/-- `UpdateInfo` in the source: the serialized result of an update check. -/
structure UpdateInfo : Type where
  update_available : Bool
  version : Option String
  deriving DecidableEq, Repr

/-- A pending update as returned by `updater.check()`: its manifest
version, the progress events its download would emit, and whether the
download-and-apply step succeeds. -/
structure Update : Type where
  version : String
  chunks : List Nat
  outcome : Except String Unit

/-- Rust `update.download_and_install(on_chunk, on_finish)`: downloads the
update, feeding each progress event to the caller-supplied chunk callback
and then calling the finish callback, and applies it.  The callback state
is threaded explicitly and returned next to the command result. -/
def Update.download_and_install {σ : Type} (u : Update)
    (on_chunk : σ → Nat → σ) (on_finish : σ → σ) (s : σ) :
    Except String Unit × σ :=
  (u.outcome, on_finish (u.chunks.foldl on_chunk s))

/-- Behaviour of the updater provider for one invocation: `app.updater()`
may fail, `updater.check()` may fail, report no pending update, or
report a pending update. -/
inductive UpdaterEnv : Type
  | noUpdater (e : String)
  | checkFailed (e : String)
  | noUpdate
  | pending (u : Update)

/-- Rust `check_update`: query the updater and serialize the outcome. -/
def check_update (env : UpdaterEnv) : Except String UpdateInfo :=
  match env with
  | .noUpdater e => .error e
  | .checkFailed e => .error e
  | .noUpdate => .ok { update_available := false, version := none }
  | .pending u => .ok { update_available := true, version := some u.version }

/-- Rust `install_update`: re-check, and when an update is pending
download and apply it with no-op callbacks (`|_, _| {}` and `|| {}`,
modelled with trivial state `Unit`); error `"No update available"` when
none is pending. -/
def install_update (env : UpdaterEnv) : Except String Unit :=
  match env with
  | .noUpdater e => .error e
  | .checkFailed e => .error e
  | .noUpdate => .error "No update available"
  | .pending u =>
    (u.download_and_install (fun s _ => s) (fun s => s) ()).1

/-- The same computation as `install_update`, additionally recording
whether the `download_and_install` step was reached; the first component
agrees with `install_update` (see `install_update_trace_fst`). -/
def install_update_trace (env : UpdaterEnv) : Except String Unit × Bool :=
  match env with
  | .noUpdater e => (.error e, false)
  | .checkFailed e => (.error e, false)
  | .noUpdate => (.error "No update available", false)
  | .pending u =>
    ((u.download_and_install (fun s _ => s) (fun s => s) ()).1, true)

/-! ## File dialogs -/

/-- A path handed back by the dialog provider; `lossy` is the result of
Rust `to_string_lossy` on it. -/
structure FsPath : Type where
  lossy : String
  deriving DecidableEq, Repr

/-- Rust `path.to_string_lossy().to_string()`. -/
def FsPath.to_string_lossy (p : FsPath) : String := p.lossy

/-- The dialog being built (`app.dialog().file()` then `set_title` /
`set_file_name`). -/
structure FileDialog : Type where
  title : Option String
  fileName : Option String
  deriving DecidableEq, Repr

/-- Rust `app.dialog().file()`: a fresh dialog with nothing set. -/
def FileDialog.file : FileDialog := { title := none, fileName := none }

/-- Rust `dialog.set_title(t)`. -/
def FileDialog.set_title (d : FileDialog) (t : String) : FileDialog :=
  { d with title := some t }

/-- Rust `dialog.set_file_name(f)`. -/
def FileDialog.set_file_name (d : FileDialog) (f : String) : FileDialog :=
  { d with fileName := some f }

/-- The user's response to each kind of picker, as a function of the
dialog shown; `none` is user cancellation. -/
structure DialogEnv : Type where
  pick_folder : FileDialog → Option FsPath
  pick_folders : FileDialog → Option (List FsPath)
  pick_file : FileDialog → Option FsPath
  pick_files : FileDialog → Option (List FsPath)
  save_file : FileDialog → Option FsPath

/-- The dialog built by `open_directory_picker` / `open_file_picker` for
a given optional title. -/
def pickerDialog (title : Option String) : FileDialog :=
  match title with
  | some t => FileDialog.file.set_title t
  | none => FileDialog.file

/-- The dialog built by `save_file_picker` for a given optional title and
optional suggested file name. -/
def saveDialog (title : Option String) (default_path : Option String) :
    FileDialog :=
  let d := pickerDialog title
  match default_path with
  | some path => d.set_file_name path
  | none => d

/-- A dialog provider where the user cancels every dialog. -/
def cancelEnv : DialogEnv :=
  { pick_folder := fun _ => none
    pick_folders := fun _ => none
    pick_file := fun _ => none
    pick_files := fun _ => none
    save_file := fun _ => none }

/-- Rust `open_directory_picker`. -/
def open_directory_picker (env : DialogEnv)
    (title : Option String) (multiple : Option Bool) :
    Except String (Option (List String)) :=
  let dialog := pickerDialog title
  if multiple.getD false then
    match env.pick_folders dialog with
    | some paths => .ok (some (paths.map (fun p => p.to_string_lossy)))
    | none => .ok none
  else
    match env.pick_folder dialog with
    | some path => .ok (some [path.to_string_lossy])
    | none => .ok none

/-- Rust `open_file_picker`. -/
def open_file_picker (env : DialogEnv)
    (title : Option String) (multiple : Option Bool) :
    Except String (Option (List String)) :=
  let dialog := pickerDialog title
  if multiple.getD false then
    match env.pick_files dialog with
    | some paths => .ok (some (paths.map (fun p => p.to_string_lossy)))
    | none => .ok none
  else
    match env.pick_file dialog with
    | some path => .ok (some [path.to_string_lossy])
    | none => .ok none

/-- Rust `save_file_picker`. -/
def save_file_picker (env : DialogEnv)
    (title : Option String) (default_path : Option String) :
    Except String (Option String) :=
  let dialog := saveDialog title default_path
  match env.save_file dialog with
  | some path => .ok (some path.to_string_lossy)
  | none => .ok none

/-! ## Notifications -/

/-- The notification under construction (`app.notification().builder()`
then `title` / `body`). -/
structure NotificationRequest : Type where
  title : Option String
  body : Option String
  deriving DecidableEq, Repr

/-- Rust `app.notification().builder()`. -/
def NotificationRequest.builder : NotificationRequest :=
  { title := none, body := none }

/-- Rust `builder.title(t)`. -/
def NotificationRequest.set_title (n : NotificationRequest) (t : String) :
    NotificationRequest :=
  { n with title := some t }

/-- Rust `builder.body(b)`. -/
def NotificationRequest.set_body (n : NotificationRequest) (b : String) :
    NotificationRequest :=
  { n with body := some b }

/-- Behaviour of the notification provider: the result of `show()` as a
function of the notification displayed. -/
structure NotifyEnv : Type where
  showResult : NotificationRequest → Except String Unit

/-- The notification `notify` builds for given title and body. -/
def notifyRequest (title : String) (body : Option String) :
    NotificationRequest :=
  let n := NotificationRequest.builder.set_title title
  match body with
  | some b => n.set_body b
  | none => n

/-- Rust `notify`: build the notification from `title` and `body` and
show it; the third client argument `_href` is bound but never used. -/
def notify (env : NotifyEnv) (title : String) (body : Option String)
    (_href : Option String) : Except String Unit :=
  env.showResult (notifyRequest title body)

/-! ## Process restart -/

/-- Outcome of invoking a command handler: either a value is delivered
back to the caller, or the process terminates first and nothing is
delivered. -/
inductive CommandOutcome (α : Type) : Type
  | returned (v : α)
  | terminated

/-- Sequencing of command outcomes: after termination nothing further
runs. -/
def CommandOutcome.andThen {α β : Type} :
    CommandOutcome α → (α → CommandOutcome β) → CommandOutcome β
  | .terminated, _ => .terminated
  | .returned a, f => f a

/-- Rust `app.restart()` from the process provider: its return type is
the never type `!` (it terminates and relaunches the process), so the
only outcome is termination and a returned value would carry `Empty`. -/
def appRestart : CommandOutcome Empty := .terminated

/-- Rust `restart`: call `app.restart()`, then (unreachably) return
`Ok(())`. -/
def restart : CommandOutcome (Except String Unit) :=
  appRestart.andThen (fun _ => .returned (.ok ()))

/-! ## Store lemmas -/

/-- Looking the key up right after `storeSet` finds the new value. -/
theorem storeGet_storeSet (st : Store) (k : String) (v : JsonValue) :
    storeGet (storeSet st k v) k = some v := by
  simp [storeGet, storeSet, List.find?]

/-- After `storeDelete` the key is absent. -/
theorem storeGet_storeDelete (st : Store) (k : String) :
    storeGet (storeDelete st k) k = none := by
  induction st with
  | nil => rfl
  | cons p rest ih =>
    by_cases h : p.1 = k
    · simpa [storeDelete, h] using ih
    · simpa [storeDelete, storeGet, List.find?, h] using ih

/-- `storeDelete` leaves no entry for the key at all. -/
theorem storeDelete_filter_self (st : Store) (k : String) :
    (storeDelete st k).filter (fun p => p.1 = k) = [] := by
  induction st with
  | nil => rfl
  | cons p rest ih =>
    by_cases h : p.1 = k
    · simp [storeDelete, h, ih]
    · simp [storeDelete, List.filter, h, ih]

/-- Deleting a key twice is the same as deleting it once. -/
theorem storeDelete_idem (st : Store) (k : String) :
    storeDelete (storeDelete st k) k = storeDelete st k := by
  induction st with
  | nil => rfl
  | cons p rest ih =>
    by_cases h : p.1 = k
    · simp [storeDelete, List.filter, h, ih]
    · simp [storeDelete, List.filter, h, ih]

/-- Deleting a key drops a head entry carrying that key. -/
theorem storeDelete_cons_self (t : Store) (k : String) (v : JsonValue) :
    storeDelete ((k, v) :: t) k = storeDelete t k := by
  simp [storeDelete, List.filter_cons]

/-- Deleting the key removes whatever a previous `storeSet` of the same
key wrote. -/
theorem storeDelete_storeSet (st : Store) (k : String) (v : JsonValue) :
    storeDelete (storeSet st k v) k = storeDelete st k := by
  simp only [storeSet]
  rw [storeDelete_cons_self, storeDelete_idem]

/-- A second `storeSet` of the same key fully overwrites the first. -/
theorem storeSet_storeSet (st : Store) (k : String) (a b : JsonValue) :
    storeSet (storeSet st k a) k b = storeSet st k b := by
  simp only [storeSet]
  rw [storeDelete_cons_self, storeDelete_idem]

/-- The store state after a successful `set_default_server_url` with a
URL present. -/
theorem set_default_server_url_state (env : StoreEnv) (st : Store)
    (u : String) (hopen : env.openError = none) :
    (set_default_server_url env st (some u)).2
      = storeSet st DEFAULT_SERVER_KEY (.str u) := by
  cases hs : env.saveError <;> simp [set_default_server_url, hopen, hs]

/-- The store state after a successful `set_default_server_url` with no
URL. -/
theorem set_default_server_url_state_clear (env : StoreEnv) (st : Store)
    (hopen : env.openError = none) :
    (set_default_server_url env st none).2
      = storeDelete st DEFAULT_SERVER_KEY := by
  cases hs : env.saveError <;> simp [set_default_server_url, hopen, hs]

/-- The command result of a fully successful `set_default_server_url`. -/
theorem set_default_server_url_ok (env : StoreEnv) (st : Store)
    (url : Option String) (hopen : env.openError = none)
    (hsave : env.saveError = none) :
    (set_default_server_url env st url).1 = .ok () := by
  cases url <;> simp [set_default_server_url, hopen, hsave]

/-- Two consecutive successful sets of the key: only the second remains. -/
theorem set_default_server_url_twice (env : StoreEnv) (st : Store)
    (a b : String) (hopen : env.openError = none) :
    (set_default_server_url env
        (set_default_server_url env st (some a)).2 (some b)).2
      = (set_default_server_url env st (some b)).2 := by
  rw [set_default_server_url_state env st a hopen,
      set_default_server_url_state env _ b hopen,
      set_default_server_url_state env st b hopen]
  exact storeSet_storeSet st DEFAULT_SERVER_KEY (.str a) (.str b)

/-! ## Claim theorems -/

/-- Claim C1: for every string `u`, `set_default_server_url (some u)`
succeeds and a following `get_default_server_url` returns `some u`
exactly, assuming both store opens and the save succeed. -/
theorem C1_set_get_roundtrip (env : StoreEnv) (st : Store) (u : String)
    (hopen : env.openError = none) (hsave : env.saveError = none) :
    (set_default_server_url env st (some u)).1 = .ok () ∧
    get_default_server_url env (set_default_server_url env st (some u)).2
      = .ok (some u) := by
  refine ⟨set_default_server_url_ok env st (some u) hopen hsave, ?_⟩
  rw [set_default_server_url_state env st u hopen]
  simp [get_default_server_url, hopen, storeGet_storeSet, JsonValue.as_str]

/-- Witness for C1 at a concrete URL and store. -/
theorem C1_set_get_roundtrip_witness :
    (set_default_server_url ⟨none, none⟩ [] (some "https://example.com")).1
      = .ok () ∧
    get_default_server_url ⟨none, none⟩
      (set_default_server_url ⟨none, none⟩ [] (some "https://example.com")).2
      = .ok (some "https://example.com") :=
  C1_set_get_roundtrip ⟨none, none⟩ [] "https://example.com" rfl rfl

/-- Claim C4: `set_default_server_url none` deletes the fixed key and
succeeds, and a following `get_default_server_url` reports the value as
absent (a success, not an error), assuming the store opens and the save
succeeds. -/
theorem C4_clear_get_absent (env : StoreEnv) (st : Store)
    (hopen : env.openError = none) (hsave : env.saveError = none) :
    (set_default_server_url env st none).1 = .ok () ∧
    (set_default_server_url env st none).2
      = storeDelete st DEFAULT_SERVER_KEY ∧
    get_default_server_url env (set_default_server_url env st none).2
      = .ok none := by
  refine ⟨set_default_server_url_ok env st none hopen hsave,
    set_default_server_url_state_clear env st hopen, ?_⟩
  rw [set_default_server_url_state_clear env st hopen]
  simp [get_default_server_url, hopen, storeGet_storeDelete]

/-- Witness for C4 at a store that previously held a URL. -/
theorem C4_clear_get_absent_witness :
    (set_default_server_url ⟨none, none⟩
        [(DEFAULT_SERVER_KEY, JsonValue.str "https://old.example")] none).1
      = .ok () ∧
    (set_default_server_url ⟨none, none⟩
        [(DEFAULT_SERVER_KEY, JsonValue.str "https://old.example")] none).2
      = storeDelete [(DEFAULT_SERVER_KEY, JsonValue.str "https://old.example")]
          DEFAULT_SERVER_KEY ∧
    get_default_server_url ⟨none, none⟩
      (set_default_server_url ⟨none, none⟩
        [(DEFAULT_SERVER_KEY, JsonValue.str "https://old.example")] none).2
      = .ok none :=
  C4_clear_get_absent ⟨none, none⟩
    [(DEFAULT_SERVER_KEY, JsonValue.str "https://old.example")] rfl rfl

/-- Claim C5: any sequence of successful `set_default_server_url` calls
leaves the store exactly as a single set of the last value would: the
fixed key holds the last value, only one entry for the key exists, and no
earlier value is retained. -/
theorem C5_last_write_wins (env : StoreEnv) (st : Store)
    (us : List String) (u : String) (hopen : env.openError = none) :
    ((us ++ [u]).foldl
        (fun s v => (set_default_server_url env s (some v)).2) st
      = (set_default_server_url env st (some u)).2) ∧
    ((set_default_server_url env st (some u)).2).filter
        (fun p => p.1 = DEFAULT_SERVER_KEY)
      = [(DEFAULT_SERVER_KEY, JsonValue.str u)] ∧
    storeGet (set_default_server_url env st (some u)).2 DEFAULT_SERVER_KEY
      = some (JsonValue.str u) := by
  refine ⟨?_, ?_, ?_⟩
  · induction us generalizing st with
    | nil => simp
    | cons v rest ih =>
      simp only [List.cons_append, List.foldl_cons]
      rw [ih (set_default_server_url env st (some v)).2]
      exact set_default_server_url_twice env st v u hopen
  · rw [set_default_server_url_state env st u hopen]
    simp [storeSet, List.filter_cons, storeDelete_filter_self]
  · rw [set_default_server_url_state env st u hopen]
    exact storeGet_storeSet st DEFAULT_SERVER_KEY (.str u)

/-- Witness for C5: two earlier values, the last one wins. -/
theorem C5_last_write_wins_witness :
    ((["https://a.example", "https://b.example"] ++ ["https://c.example"]).foldl
        (fun s v => (set_default_server_url ⟨none, none⟩ s (some v)).2) []
      = (set_default_server_url ⟨none, none⟩ [] (some "https://c.example")).2) ∧
    ((set_default_server_url ⟨none, none⟩ [] (some "https://c.example")).2).filter
        (fun p => p.1 = DEFAULT_SERVER_KEY)
      = [(DEFAULT_SERVER_KEY, JsonValue.str "https://c.example")] ∧
    storeGet (set_default_server_url ⟨none, none⟩ []
        (some "https://c.example")).2 DEFAULT_SERVER_KEY
      = some (JsonValue.str "https://c.example") :=
  C5_last_write_wins ⟨none, none⟩ []
    ["https://a.example", "https://b.example"] "https://c.example" rfl

/-- A fold with a callback that ignores its input leaves the state
unchanged (behaviour of the no-op chunk callback). -/
theorem foldl_noop {σ : Type} (s : σ) (l : List Nat) :
    l.foldl (fun x _ => x) s = s := by
  induction l generalizing s with
  | nil => rfl
  | cons c rest ih => simpa [List.foldl_cons] using ih s

/-- Claim C6: `get_os` returns exactly one member of the fixed
enumeration on every compilation target, and never the empty string. -/
theorem C6_get_os_enum (t : TargetOs) :
    (get_os t = "macos" ∨ get_os t = "windows" ∨ get_os t = "linux" ∨
      get_os t = "unknown") ∧ get_os t ≠ "" := by
  cases t <;> simp [get_os]

/-- Claim C7: `check_update` reports `available := true` with the
manifest version when an update is pending, `available := false` with no
version when none is pending, and propagates the updater or check error
otherwise. -/
theorem C7_check_update_shape (env : UpdaterEnv) :
    (env = .noUpdate →
      check_update env = .ok { update_available := false, version := none }) ∧
    (∀ u, env = .pending u →
      check_update env
        = .ok { update_available := true, version := some u.version }) ∧
    (∀ e, env = .noUpdater e ∨ env = .checkFailed e →
      check_update env = .error e) := by
  refine ⟨fun h => ?_, fun u h => ?_, fun e h => ?_⟩
  · rw [h]; rfl
  · rw [h]; rfl
  · rcases h with h | h <;> (rw [h]; rfl)

/-- Witness for C7: the three shapes at concrete updater behaviours. -/
theorem C7_check_update_shape_witness :
    check_update .noUpdate
      = .ok { update_available := false, version := none } ∧
    check_update (.pending ⟨"2.0.1", [3, 5], .ok ()⟩)
      = .ok { update_available := true, version := some "2.0.1" } ∧
    check_update (.noUpdater "no updater") = .error "no updater" :=
  ⟨(C7_check_update_shape .noUpdate).1 rfl,
   (C7_check_update_shape (.pending ⟨"2.0.1", [3, 5], .ok ()⟩)).2.1
     ⟨"2.0.1", [3, 5], .ok ()⟩ rfl,
   (C7_check_update_shape (.noUpdater "no updater")).2.2 "no updater"
     (Or.inl rfl)⟩

/-- Claim C9: every successful `check_update` result satisfies
`update_available = true` exactly when the version field is present. -/
theorem C9_update_info_invariant (env : UpdaterEnv) (info : UpdateInfo)
    (h : check_update env = .ok info) :
    info.update_available = true ↔ info.version.isSome = true := by
  cases env with
  | noUpdater e => simp [check_update] at h
  | checkFailed e => simp [check_update] at h
  | noUpdate =>
    simp only [check_update, Except.ok.injEq] at h
    rw [← h]
    simp
  | pending u =>
    simp only [check_update, Except.ok.injEq] at h
    rw [← h]
    simp

/-- Witness for C9 at a concrete successful check. -/
theorem C9_update_info_invariant_witness :
    ({ update_available := false, version := none } : UpdateInfo).update_available
        = true
      ↔ ({ update_available := false, version := none } : UpdateInfo).version.isSome
        = true :=
  C9_update_info_invariant .noUpdate { update_available := false, version := none }
    rfl

/-- Claim C2: when the re-check reports no pending update (the state in
which `check_update` answers `available := false`), `install_update`
fails with the `"No update available"` error and the download step is
never reached; when an update is pending it downloads and applies it, the
no-op progress callbacks observing nothing. -/
theorem C2_install_no_update (env : UpdaterEnv) :
    (check_update env = .ok { update_available := false, version := none } →
      install_update env = .error "No update available" ∧
      (install_update_trace env).2 = false) ∧
    (∀ u, env = .pending u →
      install_update env = u.outcome ∧
      (install_update_trace env).2 = true ∧
      ∀ (σ : Type) (s : σ),
        (u.download_and_install (fun x _ => x) (fun x => x) s).2 = s) := by
  constructor
  · intro h
    cases env with
    | noUpdater e => simp [check_update] at h
    | checkFailed e => simp [check_update] at h
    | noUpdate => exact ⟨rfl, rfl⟩
    | pending u => simp [check_update] at h
  · intro u h
    subst h
    refine ⟨rfl, rfl, fun σ s => ?_⟩
    simp [Update.download_and_install, foldl_noop]

/-- Witness for C2: no pending update yields the error and no download;
a pending update is downloaded and applied. -/
theorem C2_install_no_update_witness :
    (install_update .noUpdate = .error "No update available" ∧
      (install_update_trace .noUpdate).2 = false) ∧
    install_update (.pending ⟨"2.0.1", [3, 5], .ok ()⟩) = .ok () :=
  ⟨(C2_install_no_update .noUpdate).1 rfl,
   ((C2_install_no_update (.pending ⟨"2.0.1", [3, 5], .ok ()⟩)).2
      ⟨"2.0.1", [3, 5], .ok ()⟩ rfl).1⟩

/-- Claim C3: cancelling the dialog (the provider answers `none`) makes
each of the three pickers return a successful absent result, for every
choice of the optional arguments. -/
theorem C3_cancel_ok (env : DialogEnv) (title : Option String)
    (multiple : Option Bool) (default_path : Option String)
    (h1 : env.pick_folder (pickerDialog title) = none)
    (h2 : env.pick_folders (pickerDialog title) = none)
    (h3 : env.pick_file (pickerDialog title) = none)
    (h4 : env.pick_files (pickerDialog title) = none)
    (h5 : env.save_file (saveDialog title default_path) = none) :
    open_directory_picker env title multiple = .ok none ∧
    open_file_picker env title multiple = .ok none ∧
    save_file_picker env title default_path = .ok none := by
  refine ⟨?_, ?_, ?_⟩
  · by_cases hm : multiple.getD false <;>
      simp [open_directory_picker, hm, h1, h2]
  · by_cases hm : multiple.getD false <;>
      simp [open_file_picker, hm, h3, h4]
  · simp [save_file_picker, h5]

/-- Witness for C3: the always-cancelling user at concrete arguments. -/
theorem C3_cancel_ok_witness :
    open_directory_picker cancelEnv (some "Choose") (some true) = .ok none ∧
    open_file_picker cancelEnv (some "Choose") (some true) = .ok none ∧
    save_file_picker cancelEnv (some "Choose") (some "out.txt") = .ok none :=
  C3_cancel_ok cancelEnv (some "Choose") (some true) (some "out.txt")
    rfl rfl rfl rfl rfl

/-- Claim C8: the restart handler's only outcome is process termination;
no value, in particular no successful unit result, is ever delivered back
to the caller. -/
theorem C8_restart_never_returns :
    restart = CommandOutcome.terminated ∧
    ∀ v : Except String Unit, restart ≠ CommandOutcome.returned v := by
  refine ⟨rfl, fun v h => ?_⟩
  rw [show restart = CommandOutcome.terminated from rfl] at h
  exact CommandOutcome.noConfusion h

/-- Claim C10: `notify` ignores its `_href` argument: two calls differing
only in it build the same notification and produce the same result, for
every notification-backend behaviour. -/
theorem C10_href_ignored (env : NotifyEnv) (title : String)
    (body href1 href2 : Option String) :
    notify env title body href1 = notify env title body href2 := rfl

end Shim
